import Mathlib

/-!
Verification of the Fraud-Detection-System core against its design spec.

The definitions below are a shallow embedding of the two Go programs:
* the intake-and-scoring HTTP service (`src/unnamed/part_000`, package main of
  the Go API): `processTransactionHandler`, `batchProcessHandler`,
  `getUserRiskScore`, `getAmountToHistoryRatio`, `getFraudScorePlaceholder`,
  `ensureUserExists`, `storeTransaction`, `sendToKafka`;
* the Kafka feedback processor (`src/go_processor/main.go`):
  `process`, `updateUserRiskScore`, `storeMetadata`, `updateFeatureStore`,
  `cacheRecent`, `generateAlert`.

Monetary amounts and scores are embedded as exact rationals (the Go code uses
float64; the spec's arithmetic is stated over reals, and all constants involved
are small decimal fractions).  Database tables are association lists, Redis is
a list of keyed entries carrying an absolute expiry instant, Kafka topics are
lists of emitted payloads.  Wall-clock values (`time.Now()`) are explicit
parameters, since they are environment inputs.
-/

namespace FraudDetection

/-- Request body decoded by the Go API handler (struct `TransactionRequest`). -/
structure TransactionRequest where
  user_id : String
  amount : ℚ
  merchant_id : String
  merchant_risk : ℚ
  device_id : Option String := none
  ip_address : Option String := none
  deriving DecidableEq

/-- Response body of the Go API handler (struct `TransactionResponse`). -/
structure TransactionResponse where
  transaction_id : String
  is_fraud : Bool
  fraud_score : ℚ
  confidence : ℚ
  risk_factors : List String
  processing_time_ms : Nat
  deriving DecidableEq

/-- A row of the `transactions` table, with the columns the Go code touches.
The intake INSERT leaves `device_id` and `ip_address` NULL; the feedback
processor later fills them in (`storeMetadata`). -/
structure TxRow where
  transaction_id : String
  user_id : String
  amount : ℚ
  merchant_id : String
  merchant_risk : ℚ
  fraud_score : ℚ
  is_fraud : Bool
  device_id : Option String := none
  ip_address : Option String := none
  deriving DecidableEq

/-- One Redis key with a string value and an absolute expiry instant,
modelling `rdb.Set(ctx, key, value, ttl)`.  The key is alive at instant
`now` iff `now < expiresAt`. -/
structure CacheEntry where
  key : String
  value : String
  expiresAt : Nat
  deriving DecidableEq

/-- Payload published to the `fraud-transactions` topic by `sendToKafka`
(fields `transaction_id, user_id, amount, fraud_score, is_fraud`; the
`timestamp` field is environment noise and not modelled). -/
structure DecisionEvent where
  transaction_id : String
  user_id : String
  amount : ℚ
  fraud_score : ℚ
  is_fraud : Bool
  deriving DecidableEq

/-- State touched by the intake service: response cache (Redis), `users` and
`transactions` tables (Postgres), and the decision-event topic (Kafka). -/
structure ApiState where
  cache : List CacheEntry
  users : List (String × ℚ)
  transactions : List TxRow
  events : List DecisionEvent
  deriving DecidableEq

/-- `rdb.Get` at instant `now`: the first live entry with the given key. -/
def cacheGet : List CacheEntry → Nat → String → Option String
  | [], _, _ => none
  | e :: rest, now, k =>
      if e.key = k ∧ now < e.expiresAt then some e.value else cacheGet rest now k

/-- Go `getUserRiskScore`: `SELECT risk_score FROM users WHERE user_id = $1`;
the scan target is pre-initialised to 0.5, so a missing row yields 0.5.
The feedback processor's `updateUserRiskScore` reads the current value the
same way. -/
def getUserRiskScore : List (String × ℚ) → String → ℚ
  | [], _ => 1/2
  | p :: rest, uid => if p.1 = uid then p.2 else getUserRiskScore rest uid

/-- `SELECT AVG(amount) FROM transactions WHERE user_id = $1`: `none` models
SQL NULL (no rows for the user). -/
def avgAmount (txs : List TxRow) (uid : String) : Option ℚ :=
  let amts := (txs.filter (fun t => t.user_id == uid)).map (fun t => t.amount)
  if amts.isEmpty then none else some (amts.sum / (amts.length : ℚ))

/-- Go `getAmountToHistoryRatio`: `base := 100.0`; if the SQL average is
non-NULL and strictly positive, `base = avg`; the result is `amount / base`. -/
def getAmountToHistoryRatio (avg : Option ℚ) (amount : ℚ) : ℚ :=
  match avg with
  | some a => if a > 0 then amount / a else amount / 100
  | none => amount / 100

/-- Go `getFraudScorePlaceholder`: the local heuristic scoring function.
Returns (score, confidence, risk factor names). -/
def getFraudScorePlaceholder (amount merchantRisk userRisk ratio : ℚ) :
    ℚ × ℚ × List String :=
  let score1 : ℚ := 3/10
  let score2 : ℚ := if amount > 5000 then score1 + 3/10 else score1
  let score3 : ℚ := score2 + 2/10 * merchantRisk
  let score4 : ℚ := score3 + 1/10 * userRisk
  let score5 : ℚ := if ratio > 5 then score4 + 2/10 else score4
  let score : ℚ := if score5 > 1 then 1 else score5
  let rf : List String :=
    (if amount > 5000 then ["high_amount"] else [])
      ++ (if merchantRisk > 8/10 then ["high_merchant_risk"] else [])
      ++ (if userRisk > 7/10 then ["high_user_risk"] else [])
      ++ (if ratio > 5 then ["unusual_amount_pattern"] else [])
  (score, 4/5, rf)

/-- Go `ensureUserExists`: `INSERT ... ON CONFLICT (user_id) DO NOTHING`
with default risk score 0.5. -/
def ensureUserExists (users : List (String × ℚ)) (uid : String) : List (String × ℚ) :=
  if users.any (fun p => p.1 == uid) then users else (uid, 1/2) :: users

/-- Go `storeTransaction`: INSERT of the transaction row (no device/IP). -/
def storeTransaction (txs : List TxRow) (txID : String) (req : TransactionRequest)
    (score : ℚ) (isFraud : Bool) : List TxRow :=
  { transaction_id := txID, user_id := req.user_id, amount := req.amount,
    merchant_id := req.merchant_id, merchant_risk := req.merchant_risk,
    fraud_score := score, is_fraud := isFraud } :: txs

/-- Go `sendToKafka`: best-effort publish of the decision event. -/
def sendToKafka (events : List DecisionEvent) (txID : String)
    (req : TransactionRequest) (score : ℚ) (isFraud : Bool) : List DecisionEvent :=
  { transaction_id := txID, user_id := req.user_id, amount := req.amount,
    fraud_score := score, is_fraud := isFraud } :: events

/-- The serialized response blob (`json.Marshal(resp)`); the exact rendering
is irrelevant to the claims, only that the cached bytes are returned verbatim
on a replay hit. -/
def encodeResponse (r : TransactionResponse) : String :=
  String.intercalate "|"
    [r.transaction_id, toString r.is_fraud,
     toString r.fraud_score.num ++ "/" ++ toString r.fraud_score.den,
     toString r.confidence.num ++ "/" ++ toString r.confidence.den,
     String.intercalate "," r.risk_factors, toString r.processing_time_ms]

/-- Scoring dispatch in the handler: if `USE_ML_GRPC` is enabled and the gRPC
call succeeds (`grpcResult = some r`), its triple is used; otherwise the local
heuristic is used.  The external scorer's output is an environment input. -/
def selectScore (useGRPC : Bool) (grpcResult : Option (ℚ × ℚ × List String))
    (amount merchantRisk userRisk ratio : ℚ) : ℚ × ℚ × List String :=
  if useGRPC then
    match grpcResult with
    | some r => r
    | none => getFraudScorePlaceholder amount merchantRisk userRisk ratio
  else getFraudScorePlaceholder amount merchantRisk userRisk ratio

/-- Outcome of one handler invocation: a raw cache-hit body written verbatim,
or a freshly computed 200 response.  (Storage errors are not modelled; the
claims under study concern the successful paths.) -/
inductive ApiOutput where
  | cached (body : String)
  | ok (resp : TransactionResponse)
  deriving DecidableEq

/-- Go `processTransactionHandler` after JSON decoding.  `txID` is the
freshly generated identifier (`time.Now().UnixNano()` — an environment
input), `now` the current instant for cache expiry, `ms` the measured
latency.  Mirrors the code: cache check, feature lookup, scoring, threshold,
ensure-user, store, publish, cache the serialized response for 300 s. -/
def processTransactionHandler (st : ApiState) (req : TransactionRequest)
    (txID : String) (now : Nat) (useGRPC : Bool)
    (grpcResult : Option (ℚ × ℚ × List String)) (ms : Nat) :
    ApiOutput × ApiState :=
  let cacheKey := "transaction:" ++ txID
  match cacheGet st.cache now cacheKey with
  | some cached => (ApiOutput.cached cached, st)
  | none =>
      let userRisk := getUserRiskScore st.users req.user_id
      let ratio := getAmountToHistoryRatio (avgAmount st.transactions req.user_id) req.amount
      let s := selectScore useGRPC grpcResult req.amount req.merchant_risk userRisk ratio
      let fraudScore := s.1
      let confidence := s.2.1
      let riskFactors := s.2.2
      let isFraud : Bool := decide (fraudScore > 7/10)
      let users1 := ensureUserExists st.users req.user_id
      let txs1 := storeTransaction st.transactions txID req fraudScore isFraud
      let events1 := sendToKafka st.events txID req fraudScore isFraud
      let resp : TransactionResponse :=
        { transaction_id := txID, is_fraud := isFraud, fraud_score := fraudScore,
          confidence := confidence, risk_factors := riskFactors,
          processing_time_ms := ms }
      let body := encodeResponse resp
      let cache1 : List CacheEntry := { key := cacheKey, value := body, expiresAt := now + 300 } :: st.cache
      (ApiOutput.ok resp,
       { cache := cache1, users := users1, transactions := txs1, events := events1 })

/-- Go `batchProcessHandler`: the loop body ignores each request and appends a
fixed placeholder response; `ids i` is the identifier generated for the i-th
item. -/
def batchProcessHandler (reqs : List TransactionRequest) (ids : Nat → String) :
    List TransactionResponse :=
  (List.range reqs.length).map fun i =>
    { transaction_id := ids i, is_fraud := false, fraud_score := 1/2,
      confidence := 4/5, risk_factors := ["batch_processing"],
      processing_time_ms := 0 }

/-! ### Feedback processor (`src/go_processor/main.go`) -/

/-- Decision message consumed from the `fraud-transactions` topic
(struct `TransactionMessage`). -/
structure TransactionMessage where
  transaction_id : String
  user_id : String
  amount : ℚ
  fraud_score : ℚ
  is_fraud : Bool
  timestamp : Int
  device_id : Option String := none
  ip_address : Option String := none
  deriving DecidableEq

/-- A row of the `fraud_alerts` table, with the columns the processor writes. -/
structure Alert where
  alert_id : String
  transaction_id : String
  alert_type : String
  severity : String
  description : String
  confidence_score : ℚ
  status : String
  deriving DecidableEq

/-- A row of the `feature_store` table (timestamps are environment noise and
not modelled). -/
structure FeatureRow where
  user_id : String
  feature_name : String
  feature_value : ℚ
  deriving DecidableEq

/-- The `user_recent_transactions:<uid>` Redis list with its expiry instant. -/
structure RecencyEntry where
  user_id : String
  txIds : List String
  expiresAt : Nat
  deriving DecidableEq

/-- State touched by the feedback processor: `users`, `transactions`,
`fraud_alerts`, `feature_store` (Postgres), the `user_risk:`,
`recent_transaction:` and `user_recent_transactions:` Redis keys, and the
`fraud-alerts` topic (payloads abbreviated to alert id and transaction id). -/
structure ProcState where
  users : List (String × ℚ)
  transactions : List TxRow
  alerts : List Alert
  features : List FeatureRow
  riskCache : List (String × ℚ × Nat)
  recentTx : List (String × TransactionMessage × Nat)
  recency : List RecencyEntry
  alertEvents : List (String × String)
  deriving DecidableEq

/-- `UPDATE users SET risk_score = v WHERE user_id = uid`: rewrites matching
rows, creates none. -/
def updateRow : List (String × ℚ) → String → ℚ → List (String × ℚ)
  | [], _, _ => []
  | p :: rest, uid, v =>
      (if p.1 = uid then (p.1, v) else p) :: updateRow rest uid v

/-- The new risk value computed by Go `updateUserRiskScore` from the current
stored value: additive adjustment, then clamp below at 0, then above at 1. -/
def newRiskValue (current : ℚ) (tx : TransactionMessage) : ℚ :=
  let n1 : ℚ := current + (if tx.is_fraud then (1:ℚ)/10 else 0)
      + (if tx.fraud_score > 8/10 then (5:ℚ)/100 else 0)
      + (if tx.amount > 5000 then (3:ℚ)/100 else 0)
      - (if tx.is_fraud = false ∧ tx.fraud_score < 3/10 then (2:ℚ)/100 else 0)
  let n2 : ℚ := if n1 < 0 then 0 else n1
  if n2 > 1 then 1 else n2

/-- Go `updateUserRiskScore`: read current value (0.5 if the row is missing),
compute the clamped new value, UPDATE the row, and set `user_risk:<uid>` in
Redis with a 1-hour expiry. -/
def updateUserRiskScore (st : ProcState) (now : Nat) (tx : TransactionMessage) :
    ProcState :=
  let current := getUserRiskScore st.users tx.user_id
  let v := newRiskValue current tx
  { st with
    users := updateRow st.users tx.user_id v,
    riskCache := (tx.user_id, v, now + 3600)
      :: st.riskCache.filter (fun e => e.1 != tx.user_id) }

/-- Go `storeMetadata`: UPDATE of device/IP on the transaction row. -/
def storeMetadata (st : ProcState) (tx : TransactionMessage) : ProcState :=
  { st with
    transactions := st.transactions.map fun r =>
      if r.transaction_id == tx.transaction_id then
        { r with device_id := tx.device_id, ip_address := tx.ip_address }
      else r }

/-- Go `updateFeatureStore`: append the two feature rows. -/
def updateFeatureStore (st : ProcState) (tx : TransactionMessage) : ProcState :=
  { st with
    features := st.features
      ++ [{ user_id := tx.user_id, feature_name := "transaction_amount", feature_value := tx.amount },
          { user_id := tx.user_id, feature_name := "fraud_score", feature_value := tx.fraud_score }] }

/-- Lookup of the live `user_recent_transactions:<uid>` list at instant `now`. -/
def lookupRecency : List RecencyEntry → Nat → String → Option (List String)
  | [], _, _ => none
  | e :: rest, now, uid =>
      if e.user_id = uid ∧ now < e.expiresAt then some e.txIds
      else lookupRecency rest now uid

/-- Go `cacheRecent`: cache the message under `recent_transaction:<txid>` for
30 minutes, then LPUSH the transaction id onto the user's recency list, LTRIM
to indices 0..9, and EXPIRE the list to 1 hour. -/
def cacheRecent (st : ProcState) (now : Nat) (tx : TransactionMessage) : ProcState :=
  let old := (lookupRecency st.recency now tx.user_id).getD []
  let newList := (tx.transaction_id :: old).take 10
  { st with
    recentTx := ("recent_transaction:" ++ tx.transaction_id, tx, now + 1800)
      :: st.recentTx.filter (fun e => e.1 != "recent_transaction:" ++ tx.transaction_id),
    recency := { user_id := tx.user_id, txIds := newList, expiresAt := now + 3600 }
      :: st.recency.filter (fun e => e.user_id != tx.user_id) }

/-- Severity derivation in Go `generateAlert`. -/
def severityOf (score : ℚ) : String :=
  if score > 9/10 then "CRITICAL" else if score > 8/10 then "HIGH" else "MEDIUM"

/-- Go `shortID`. -/
def shortID (id : String) : String :=
  if id.length ≤ 8 then id else id.take 8

/-- Go `generateAlert`: build a time-based alert id, INSERT an OPEN alert row
for the transaction, and publish an alert event.  There is no lookup of
existing alerts for the same transaction id. -/
def generateAlert (st : ProcState) (now : Nat) (tx : TransactionMessage) : ProcState :=
  let severity := severityOf tx.fraud_score
  let alertID := "ALERT_" ++ toString now ++ "_" ++ shortID tx.transaction_id
  let description := "Fraud detected for transaction " ++ tx.transaction_id
  let a : Alert :=
    { alert_id := alertID, transaction_id := tx.transaction_id,
      alert_type := "FRAUD_DETECTED", severity := severity,
      description := description, confidence_score := tx.fraud_score,
      status := "OPEN" }
  { st with alerts := st.alerts ++ [a],
            alertEvents := st.alertEvents ++ [(alertID, tx.transaction_id)] }

/-- Go `process`: the per-event body of the consumption loop. -/
def process (st : ProcState) (now : Nat) (tx : TransactionMessage) : ProcState :=
  let st1 := updateUserRiskScore st now tx
  let st2 := storeMetadata st1 tx
  let st3 := updateFeatureStore st2 tx
  let st4 := cacheRecent st3 now tx
  if tx.is_fraud then generateAlert st4 now tx else st4

/-- The consumption loop over a finite delivery sequence (each delivery with
its processing instant). -/
def runProcessor (st : ProcState) (evs : List (Nat × TransactionMessage)) : ProcState :=
  evs.foldl (fun s e => process s e.1 e.2) st

/-- Empty initial state for the intake service. -/
def initApiState : ApiState :=
  { cache := [], users := [], transactions := [], events := [] }

/-- Empty initial state for the feedback processor. -/
def initProcState : ProcState :=
  { users := [], transactions := [], alerts := [], features := [],
    riskCache := [], recentTx := [], recency := [], alertEvents := [] }

/-- Clamp to the unit interval, as the spec's `clamp to [0,1]`. -/
def clamp01 (x : ℚ) : ℚ := max 0 (min x 1)

/-! ### Helper lemmas -/

/-- An upper-only clamp agrees with the two-sided clamp on nonnegative input. -/
lemma upperClamp_eq_clamp01 (x : ℚ) (hx : 0 ≤ x) :
    (if x > 1 then 1 else x) = clamp01 x := by
  simp only [clamp01, max_def, min_def]
  split_ifs <;> linarith

/-- Clamping below at 0 and then above at 1 is `clamp01`. -/
lemma lowHighClamp_eq_clamp01 (x : ℚ) :
    (if (if x < 0 then (0:ℚ) else x) > 1 then 1 else if x < 0 then (0:ℚ) else x) =
      clamp01 x := by
  simp only [clamp01, max_def, min_def]
  split_ifs <;> linarith

lemma getUserRiskScore_range (users : List (String × ℚ)) (uid : String)
    (h : ∀ p ∈ users, 0 ≤ p.2 ∧ p.2 ≤ 1) :
    0 ≤ getUserRiskScore users uid ∧ getUserRiskScore users uid ≤ 1 := by
  induction users with
  | nil => constructor <;> norm_num [getUserRiskScore]
  | cons p rest ih =>
      simp only [getUserRiskScore]
      split_ifs with hp
      · exact h p (List.mem_cons_self p rest)
      · exact ih fun q hq => h q (List.mem_cons_of_mem p hq)

lemma getAmountToHistoryRatio_nonneg (avg : Option ℚ) (amount : ℚ)
    (h : 0 ≤ amount) : 0 ≤ getAmountToHistoryRatio avg amount := by
  rcases avg with - | a
  · simp only [getAmountToHistoryRatio]
    positivity
  · simp only [getAmountToHistoryRatio]
    split_ifs with ha
    · exact div_nonneg h ha.le
    · positivity

lemma getFraudScorePlaceholder_range (amount mr ur ratio : ℚ)
    (hmr : 0 ≤ mr) (hur : 0 ≤ ur) :
    0 ≤ (getFraudScorePlaceholder amount mr ur ratio).1 ∧
      (getFraudScorePlaceholder amount mr ur ratio).1 ≤ 1 := by
  have h1 : 0 ≤ 2/10 * mr := by positivity
  have h2 : 0 ≤ 1/10 * ur := by positivity
  simp only [getFraudScorePlaceholder]
  split_ifs <;> constructor <;> linarith

lemma selectScore_range (useGRPC : Bool) (g : Option (ℚ × ℚ × List String))
    (amount mr ur ratio : ℚ) (hmr : 0 ≤ mr) (hur : 0 ≤ ur)
    (hg : ∀ r, g = some r → 0 ≤ r.1 ∧ r.1 ≤ 1) :
    0 ≤ (selectScore useGRPC g amount mr ur ratio).1 ∧
      (selectScore useGRPC g amount mr ur ratio).1 ≤ 1 := by
  cases useGRPC with
  | false =>
      simpa [selectScore] using getFraudScorePlaceholder_range amount mr ur ratio hmr hur
  | true =>
      cases g with
      | none =>
          simpa [selectScore] using getFraudScorePlaceholder_range amount mr ur ratio hmr hur
      | some r => simpa [selectScore] using hg r rfl

lemma newRiskValue_eq_clamp (c : ℚ) (tx : TransactionMessage) :
    newRiskValue c tx = clamp01 (c + (if tx.is_fraud then (1:ℚ)/10 else 0)
      + (if tx.fraud_score > 8/10 then (5:ℚ)/100 else 0)
      + (if tx.amount > 5000 then (3:ℚ)/100 else 0)
      - (if tx.is_fraud = false ∧ tx.fraud_score < 3/10 then (2:ℚ)/100 else 0)) := by
  simp only [newRiskValue]
  exact lowHighClamp_eq_clamp01 _

lemma newRiskValue_mem (c : ℚ) (tx : TransactionMessage) :
    0 ≤ newRiskValue c tx ∧ newRiskValue c tx ≤ 1 := by
  rw [newRiskValue_eq_clamp]
  unfold clamp01
  exact ⟨le_max_left 0 _, max_le (by norm_num) (min_le_right _ 1)⟩

lemma newRiskValue_fraud_mono (c : ℚ) (tx : TransactionMessage)
    (hf : tx.is_fraud = true) (h0 : 0 ≤ c) (h1 : c ≤ 1) :
    c ≤ newRiskValue c tx := by
  simp only [newRiskValue, hf]
  norm_num
  split_ifs <;> linarith

lemma getUserRiskScore_updateRow (users : List (String × ℚ)) (uid : String) (v : ℚ)
    (hu : ∃ r, (uid, r) ∈ users) :
    getUserRiskScore (updateRow users uid v) uid = v := by
  induction users with
  | nil =>
      obtain ⟨r, hr⟩ := hu
      exact absurd hr (List.not_mem_nil _)
  | cons p rest ih =>
      simp only [updateRow, getUserRiskScore]
      by_cases hp : p.1 = uid
      · simp [hp]
      · simp only [if_neg hp]
        apply ih
        obtain ⟨r, hr⟩ := hu
        rcases List.mem_cons.mp hr with heq | hmem
        · exfalso
          apply hp
          rw [← heq]
        · exact ⟨r, hmem⟩

lemma updateRow_bounds (users : List (String × ℚ)) (uid : String) (v : ℚ)
    (hv : 0 ≤ v ∧ v ≤ 1) (h : ∀ p ∈ users, 0 ≤ p.2 ∧ p.2 ≤ 1) :
    ∀ p ∈ updateRow users uid v, 0 ≤ p.2 ∧ p.2 ≤ 1 := by
  induction users with
  | nil => simp [updateRow]
  | cons q rest ih =>
      intro p hp
      simp only [updateRow] at hp
      rcases List.mem_cons.mp hp with hr | hr
      · rw [hr]
        split_ifs with hq
        · exact hv
        · exact h q (List.mem_cons_self q rest)
      · exact ih (fun r hrr => h r (List.mem_cons_of_mem q hrr)) p hr

lemma process_users_eq (st : ProcState) (now : Nat) (tx : TransactionMessage) :
    (process st now tx).users =
      updateRow st.users tx.user_id
        (newRiskValue (getUserRiskScore st.users tx.user_id) tx) := by
  simp only [process]
  split_ifs <;> rfl

lemma process_recency_eq (st : ProcState) (now : Nat) (tx : TransactionMessage) :
    (process st now tx).recency =
      { user_id := tx.user_id,
        txIds := (tx.transaction_id
          :: (lookupRecency st.recency now tx.user_id).getD []).take 10,
        expiresAt := now + 3600 }
        :: st.recency.filter (fun e => e.user_id != tx.user_id) := by
  simp only [process]
  split_ifs <;> rfl

lemma runProcessor_users_inv (evs : List (Nat × TransactionMessage)) (st : ProcState)
    (h : ∀ p ∈ st.users, 0 ≤ p.2 ∧ p.2 ≤ 1) :
    ∀ p ∈ (runProcessor st evs).users, 0 ≤ p.2 ∧ p.2 ≤ 1 := by
  induction evs generalizing st with
  | nil => exact h
  | cons e rest ih =>
      apply ih
      rw [process_users_eq]
      exact updateRow_bounds _ _ _ (newRiskValue_mem _ _) h

lemma runProcessor_recency_inv (evs : List (Nat × TransactionMessage)) (st : ProcState)
    (h : ∀ e ∈ st.recency, e.txIds.length ≤ 10) :
    ∀ e ∈ (runProcessor st evs).recency, e.txIds.length ≤ 10 := by
  induction evs generalizing st with
  | nil => exact h
  | cons ev rest ih =>
      apply ih
      intro e he
      rw [process_recency_eq] at he
      rcases List.mem_cons.mp he with hr | hr
      · rw [hr]
        exact List.length_take_le 10 _
      · exact h e (List.mem_of_mem_filter hr)

/-! ### Concrete sample inputs used by the witnesses below -/

/-- A small valid request (amount 50, merchant risk 0.1). -/
def demoReq : TransactionRequest := ⟨"u1", 50, "m1", 1/10, none, none⟩

/-- A state whose response cache already holds a live blob for id `T1`. -/
def cachedSt : ApiState :=
  { cache := [⟨"transaction:T1", "PRIOR_RESPONSE", 300⟩],
    users := [], transactions := [], events := [] }

/-- The response the handler computes for `demoReq` on the empty state. -/
def respW : TransactionResponse := ⟨"T", false, 37/100, 4/5, [], 0⟩

/-- The state the handler leaves behind for `demoReq` on the empty state. -/
def stW : ApiState :=
  { cache := [⟨"transaction:" ++ "T", encodeResponse respW, 300⟩],
    users := [("u1", 1/2)],
    transactions := [⟨"T", "u1", 50, "m1", 1/10, 37/100, false, none, none⟩],
    events := [⟨"T", "u1", 50, 37/100, false⟩] }

/-- A feedback-processor state holding the single user `U1` at risk 0.5. -/
def demoProcState : ProcState :=
  { users := [("U1", 1/2)], transactions := [], alerts := [], features := [],
    riskCache := [], recentTx := [], recency := [], alertEvents := [] }

/-- A fraud-flagged decision message for user `U1`. -/
def demoMsg : TransactionMessage :=
  { transaction_id := "TXW", user_id := "U1", amount := 6000, fraud_score := 9/10,
    is_fraud := true, timestamp := 0 }

/-- A fraud-flagged decision message, used to exercise duplicate delivery. -/
def dupMsg : TransactionMessage :=
  { transaction_id := "TXDUP", user_id := "U1", amount := 100, fraud_score := 95/100,
    is_fraud := true, timestamp := 0 }

/-- A malformed request: empty user id, negative amount, merchant risk 2. -/
def invalidReq : TransactionRequest := ⟨"", -5, "M1", 2, none, none⟩

/-- The spec's high-score scenario request (amount 6000, merchant risk 0.9). -/
def stubReq : TransactionRequest := ⟨"U9", 6000, "M9", 9/10, none, none⟩

/-! ### Claims -/

/-- Claim C1: if a response blob is already cached under the transaction
identifier in effect for the request (i.e. within its 5-minute TTL, modelled
as the entry being live at the current instant), `processTransactionHandler`
returns exactly that blob and leaves the whole state unchanged: no scoring,
no user/transaction write, no event emission, no cache write. -/
theorem cached_replay_idempotent
    (st : ApiState) (req : TransactionRequest) (txID : String) (now : Nat)
    (useGRPC : Bool) (g : Option (ℚ × ℚ × List String)) (ms : Nat) (body : String)
    (hhit : cacheGet st.cache now ("transaction:" ++ txID) = some body) :
    processTransactionHandler st req txID now useGRPC g ms =
      (ApiOutput.cached body, st) := by
  simp only [processTransactionHandler, hhit]

/-- Witness for C1 at a concrete cached state. -/
theorem cached_replay_idempotent_witness :
    processTransactionHandler cachedSt demoReq "T1" 0 false none 0 =
      (ApiOutput.cached "PRIOR_RESPONSE", cachedSt) :=
  cached_replay_idempotent cachedSt demoReq "T1" 0 false none 0 "PRIOR_RESPONSE"
    (by decide)

set_option maxHeartbeats 1000000 in
/-- Claim C2: for inputs with amount ≥ 0, merchant risk ∈ [0,1],
user risk ∈ [0,1] and ratio ≥ 0, the heuristic returns
score = clamp01(0.3 + 0.3·[amount>5000] + 0.2·merchantRisk + 0.1·userRisk
+ 0.2·[ratio>5]), confidence exactly 0.8, and the four risk-factor names
exactly when the corresponding threshold fired; the scenario
(6000, 0.9, 0.5, 1) yields score 0.83 with factors
high_amount, high_merchant_risk. -/
theorem heuristic_scoring_spec (amount mr ur ratio : ℚ)
    (ha : 0 ≤ amount) (hmr0 : 0 ≤ mr) (hmr1 : mr ≤ 1)
    (hur0 : 0 ≤ ur) (hur1 : ur ≤ 1) (hrt : 0 ≤ ratio) :
    (getFraudScorePlaceholder amount mr ur ratio).1 =
      clamp01 (3/10 + (if amount > 5000 then (3:ℚ)/10 else 0) + 2/10 * mr
        + 1/10 * ur + (if ratio > 5 then (2:ℚ)/10 else 0)) ∧
    (getFraudScorePlaceholder amount mr ur ratio).2.1 = 8/10 ∧
    ("high_amount" ∈ (getFraudScorePlaceholder amount mr ur ratio).2.2 ↔
      amount > 5000) ∧
    ("high_merchant_risk" ∈ (getFraudScorePlaceholder amount mr ur ratio).2.2 ↔
      mr > 8/10) ∧
    ("high_user_risk" ∈ (getFraudScorePlaceholder amount mr ur ratio).2.2 ↔
      ur > 7/10) ∧
    ("unusual_amount_pattern" ∈ (getFraudScorePlaceholder amount mr ur ratio).2.2 ↔
      ratio > 5) ∧
    (getFraudScorePlaceholder 6000 (9/10) (1/2) 1).1 = 83/100 ∧
    (getFraudScorePlaceholder 6000 (9/10) (1/2) 1).2.2 =
      ["high_amount", "high_merchant_risk"] := by
  have h1 : 0 ≤ 2/10 * mr := by positivity
  have h2 : 0 ≤ 1/10 * ur := by positivity
  refine ⟨?_, by norm_num [getFraudScorePlaceholder], ?_, ?_, ?_, ?_,
    by norm_num [getFraudScorePlaceholder], by norm_num [getFraudScorePlaceholder]⟩
  · simp only [getFraudScorePlaceholder, clamp01, max_def, min_def]
    split_ifs <;> linarith
  · simp only [getFraudScorePlaceholder]
    split_ifs <;> simp_all
  · simp only [getFraudScorePlaceholder]
    split_ifs <;> simp_all
  · simp only [getFraudScorePlaceholder]
    split_ifs <;> simp_all
  · simp only [getFraudScorePlaceholder]
    split_ifs <;> simp_all

/-- Witness for C2 at the spec scenario input. -/
theorem heuristic_scoring_spec_witness :
    (getFraudScorePlaceholder 6000 (9/10) (1/2) 1).2.1 = 8/10 ∧
    ("high_amount" ∈ (getFraudScorePlaceholder 6000 (9/10) (1/2) 1).2.2 ↔
      (6000:ℚ) > 5000) :=
  ⟨(heuristic_scoring_spec 6000 (9/10) (1/2) 1 (by norm_num) (by norm_num)
      (by norm_num) (by norm_num) (by norm_num) (by norm_num)).2.1,
   (heuristic_scoring_spec 6000 (9/10) (1/2) 1 (by norm_num) (by norm_num)
      (by norm_num) (by norm_num) (by norm_num) (by norm_num)).2.2.1⟩

/-- Claim C3: whenever `processTransactionHandler` produces a fresh (non-cached)
response for a valid request — amount ≥ 0, merchant risk ∈ [0,1], stored user
risk scores within [0,1], and any external gRPC score within [0,1] — the
returned fraud score lies in [0,1] and the fraud flag is true exactly when
that score exceeds 0.7. -/
theorem score_range_and_fraud_threshold
    (st : ApiState) (req : TransactionRequest) (txID : String) (now : Nat)
    (useGRPC : Bool) (g : Option (ℚ × ℚ × List String)) (ms : Nat)
    (resp : TransactionResponse) (st' : ApiState)
    (hamt : 0 ≤ req.amount)
    (hmr0 : 0 ≤ req.merchant_risk) (hmr1 : req.merchant_risk ≤ 1)
    (husers : ∀ p ∈ st.users, 0 ≤ p.2 ∧ p.2 ≤ 1)
    (hg : ∀ r, g = some r → 0 ≤ r.1 ∧ r.1 ≤ 1)
    (h : processTransactionHandler st req txID now useGRPC g ms =
      (ApiOutput.ok resp, st')) :
    (0 ≤ resp.fraud_score ∧ resp.fraud_score ≤ 1) ∧
      (resp.is_fraud = true ↔ resp.fraud_score > 7/10) := by
  have hur := getUserRiskScore_range st.users req.user_id husers
  have hsel := selectScore_range useGRPC g req.amount req.merchant_risk
    (getUserRiskScore st.users req.user_id)
    (getAmountToHistoryRatio (avgAmount st.transactions req.user_id) req.amount)
    hmr0 hur.1 hg
  simp only [processTransactionHandler] at h
  split at h
  · simp at h
  · rw [Prod.mk.injEq] at h
    obtain ⟨h1, -⟩ := h
    rw [ApiOutput.ok.injEq] at h1
    subst h1
    refine ⟨hsel, ?_⟩
    simp [decide_eq_true_eq]

/-- Witness for C3 at a concrete valid request on the empty state. -/
theorem score_range_and_fraud_threshold_witness :
    (0 ≤ respW.fraud_score ∧ respW.fraud_score ≤ 1) ∧
      (respW.is_fraud = true ↔ respW.fraud_score > 7/10) :=
  score_range_and_fraud_threshold initApiState demoReq "T" 0 false none 0 respW stW
    (by norm_num [demoReq]) (by norm_num [demoReq]) (by norm_num [demoReq])
    (fun p hp => nomatch hp) (fun r hr => nomatch hr)
    (by norm_num [processTransactionHandler, cacheGet, initApiState, demoReq,
      selectScore, getFraudScorePlaceholder, getUserRiskScore, avgAmount,
      getAmountToHistoryRatio, ensureUserExists, storeTransaction, sendToKafka,
      respW, stW])

/-- Claim C4: the feedback processor recomputes the user risk as
clamp01(current + 0.1·[fraud] + 0.05·[score>0.8] + 0.03·[amount>5000]
− 0.02·[¬fraud ∧ score<0.3]) starting from the stored value (0.5 when the
row is missing), persists it (whenever the user row exists), refreshes the
cached value with a 1-hour expiry, and every stored risk score stays within
[0,1] over any sequence of processed events. -/
theorem feedback_risk_update_spec (st : ProcState) (now : Nat)
    (tx : TransactionMessage) (hu : ∃ r, (tx.user_id, r) ∈ st.users) :
    getUserRiskScore (updateUserRiskScore st now tx).users tx.user_id =
      clamp01 (getUserRiskScore st.users tx.user_id
        + (if tx.is_fraud then (1:ℚ)/10 else 0)
        + (if tx.fraud_score > 8/10 then (5:ℚ)/100 else 0)
        + (if tx.amount > 5000 then (3:ℚ)/100 else 0)
        - (if tx.is_fraud = false ∧ tx.fraud_score < 3/10 then (2:ℚ)/100 else 0)) ∧
    (updateUserRiskScore st now tx).riskCache.head? =
      some (tx.user_id,
        newRiskValue (getUserRiskScore st.users tx.user_id) tx, now + 3600) ∧
    (∀ st0 evs, (∀ p ∈ st0.users, 0 ≤ p.2 ∧ p.2 ≤ 1) →
        ∀ p ∈ (runProcessor st0 evs).users, 0 ≤ p.2 ∧ p.2 ≤ 1) := by
  refine ⟨?_, rfl, fun st0 evs h => runProcessor_users_inv evs st0 h⟩
  have he : (updateUserRiskScore st now tx).users =
      updateRow st.users tx.user_id
        (newRiskValue (getUserRiskScore st.users tx.user_id) tx) := rfl
  rw [he, getUserRiskScore_updateRow _ _ _ hu, newRiskValue_eq_clamp]

/-- Witness for C4 at a concrete state and fraud event. -/
theorem feedback_risk_update_spec_witness :
    getUserRiskScore (updateUserRiskScore demoProcState 5 demoMsg).users
        demoMsg.user_id =
      clamp01 (getUserRiskScore demoProcState.users demoMsg.user_id
        + (if demoMsg.is_fraud then (1:ℚ)/10 else 0)
        + (if demoMsg.fraud_score > 8/10 then (5:ℚ)/100 else 0)
        + (if demoMsg.amount > 5000 then (3:ℚ)/100 else 0)
        - (if demoMsg.is_fraud = false ∧ demoMsg.fraud_score < 3/10
           then (2:ℚ)/100 else 0)) :=
  (feedback_risk_update_spec demoProcState 5 demoMsg
    ⟨1/2, by simp [demoProcState, demoMsg]⟩).1

/-- Claim C5, counterexample: the claim states the divisor is
max(historical average, 100); the code divides by the average itself whenever
it is positive, so for average 50 and amount 200 the code yields 4 while the
claimed formula yields 2. -/
theorem ratio_claim_counterexample :
    ¬ getAmountToHistoryRatio (some 50) 200 = 200 / max (50:ℚ) 100 := by
  norm_num [getAmountToHistoryRatio]

/-- Claim C5, amended: the amount-to-history ratio is amount divided by the
user's average historical amount whenever that average exists and is
positive, and amount divided by 100 otherwise (no history, or a non-positive
average); in particular a positive average below 100 is used as the divisor
as-is. -/
theorem ratio_characterization (amount a : ℚ) :
    (0 < a → getAmountToHistoryRatio (some a) amount = amount / a) ∧
    (a ≤ 0 → getAmountToHistoryRatio (some a) amount = amount / 100) ∧
    getAmountToHistoryRatio none amount = amount / 100 := by
  refine ⟨fun h => ?_, fun h => ?_, rfl⟩
  · simp [getAmountToHistoryRatio, h]
  · simp [getAmountToHistoryRatio, not_lt.mpr h]

/-- Witness for the amended C5 on both branches. -/
theorem ratio_characterization_witness :
    getAmountToHistoryRatio (some 50) 200 = 200 / 50 ∧
    getAmountToHistoryRatio (some (-3)) 200 = 200 / 100 :=
  ⟨(ratio_characterization 200 50).1 (by norm_num),
   (ratio_characterization 200 (-3)).2.1 (by norm_num)⟩

/-- Claim C6: processing an event prepends the transaction id to the user's
recency list and truncates to 10 with the TTL reset to one hour; the list for
the event's user is most-recent-first with the new id at its head and never
exceeds 10 entries, over any sequence of processed events. -/
theorem recency_cache_spec (st : ProcState) (now : Nat) (tx : TransactionMessage) :
    (process st now tx).recency.head? =
      some { user_id := tx.user_id,
             txIds := (tx.transaction_id
               :: (lookupRecency st.recency now tx.user_id).getD []).take 10,
             expiresAt := now + 3600 } ∧
    (∀ e ∈ (process st now tx).recency, e.user_id = tx.user_id →
        e.txIds.length ≤ 10 ∧ e.txIds.head? = some tx.transaction_id) ∧
    (∀ st0 evs, (∀ e ∈ st0.recency, e.txIds.length ≤ 10) →
        ∀ e ∈ (runProcessor st0 evs).recency, e.txIds.length ≤ 10) := by
  refine ⟨?_, ?_, fun st0 evs h => runProcessor_recency_inv evs st0 h⟩
  · rw [process_recency_eq]
    rfl
  · intro e he hue
    rw [process_recency_eq] at he
    rcases List.mem_cons.mp he with hr | hr
    · rw [hr]
      constructor
      · exact List.length_take_le 10 _
      · rfl
    · exfalso
      have := List.of_mem_filter hr
      simp [hue] at this

/-- Witness for C6 at a concrete event on the empty state. -/
theorem recency_cache_spec_witness :
    (⟨"U1", ["TXW"], 3600⟩ : RecencyEntry).txIds.length ≤ 10 ∧
    (⟨"U1", ["TXW"], 3600⟩ : RecencyEntry).txIds.head? =
      some demoMsg.transaction_id :=
  (recency_cache_spec initProcState 0 demoMsg).2.1
    ⟨"U1", ["TXW"], 3600⟩
    (by norm_num [process, initProcState, demoMsg, updateUserRiskScore,
      storeMetadata, updateFeatureStore, cacheRecent, generateAlert, newRiskValue,
      getUserRiskScore, updateRow, lookupRecency, severityOf, shortID])
    rfl

/-- Claim C7, code evaluation at the failing input: delivering the same
fraud-flagged message twice makes `process` insert two OPEN alert rows for
the same transaction identifier — the processor has no duplicate guard, so
"exactly one alert per fraud-flagged transaction" fails under at-least-once
redelivery (one delivery does create exactly one OPEN alert). -/
theorem duplicate_fraud_delivery_duplicates_alert :
    ((process (process initProcState 1000 dupMsg) 2000 dupMsg).alerts.filter
        (fun a => a.transaction_id == "TXDUP")).length = 2 ∧
    ((process (process initProcState 1000 dupMsg) 2000 dupMsg).alerts.map
        (fun a => a.status)) = ["OPEN", "OPEN"] ∧
    (process initProcState 1000 dupMsg).alerts.length = 1 := by
  norm_num [process, initProcState, dupMsg, updateUserRiskScore, storeMetadata,
    updateFeatureStore, cacheRecent, generateAlert, newRiskValue, getUserRiskScore,
    updateRow, lookupRecency, severityOf, shortID]

/-- Claim C8, code evaluation at the failing input: the handler performs no
input validation — a request with empty user id, negative amount and merchant
risk 2 is fully processed: it gets a 200 response, a user row is created, a
transaction row is persisted, a decision event is published, and a response
cache entry is written. -/
theorem invalid_request_processed_with_side_effects :
    (processTransactionHandler initApiState invalidReq "TX8" 0 false none 0).1 =
      ApiOutput.ok ⟨"TX8", true, 3/4, 4/5, ["high_merchant_risk"], 0⟩ ∧
    (processTransactionHandler initApiState invalidReq "TX8" 0 false none 0).2.users =
      [("", 1/2)] ∧
    (processTransactionHandler initApiState invalidReq "TX8" 0 false none 0).2.transactions.length = 1 ∧
    (processTransactionHandler initApiState invalidReq "TX8" 0 false none 0).2.events.length = 1 ∧
    (cacheGet (processTransactionHandler initApiState invalidReq "TX8" 0 false none 0).2.cache
        0 ("transaction:" ++ "TX8")).isSome = true := by
  norm_num [processTransactionHandler, cacheGet, initApiState, invalidReq,
    selectScore, getFraudScorePlaceholder, getUserRiskScore, avgAmount,
    getAmountToHistoryRatio, ensureUserExists, storeTransaction, sendToKafka]

/-- Claim C9, code evaluation at the failing input: the batch endpoint returns
a fixed placeholder (score 0.5, not fraud, factor `batch_processing`) for every
item, while the single-item path scores the same request to 1 with fraud flag
true — so the batch operation does not apply the per-item single-call logic. -/
theorem batch_stub_differs_from_single_item :
    batchProcessHandler [stubReq] (fun i => "B0") =
      [{ transaction_id := "B0", is_fraud := false, fraud_score := 1/2,
         confidence := 4/5, risk_factors := ["batch_processing"],
         processing_time_ms := 0 }] ∧
    (processTransactionHandler initApiState stubReq "B0" 0 false none 0).1 =
      ApiOutput.ok ⟨"B0", true, 1, 4/5,
        ["high_amount", "high_merchant_risk", "unusual_amount_pattern"], 0⟩ ∧
    ¬ (batchProcessHandler [stubReq] (fun i => "B0")).map
        (fun r => (r.fraud_score, r.is_fraud)) = [(1, true)] := by
  norm_num [batchProcessHandler, processTransactionHandler, cacheGet, initApiState,
    stubReq, selectScore, getFraudScorePlaceholder, getUserRiskScore, avgAmount,
    getAmountToHistoryRatio, ensureUserExists, storeTransaction, sendToKafka,
    List.range_succ]

/-- Claim C10: for a fraud-flagged event with the stored user risk in [0,1]
(and the user row present, so the UPDATE takes effect), the feedback
processor's risk update never decreases the stored risk score. -/
theorem fraud_update_monotone (st : ProcState) (now : Nat)
    (tx : TransactionMessage) (hf : tx.is_fraud = true)
    (hu : ∃ r, (tx.user_id, r) ∈ st.users)
    (h0 : 0 ≤ getUserRiskScore st.users tx.user_id)
    (h1 : getUserRiskScore st.users tx.user_id ≤ 1) :
    getUserRiskScore st.users tx.user_id ≤
      getUserRiskScore (updateUserRiskScore st now tx).users tx.user_id := by
  have he : (updateUserRiskScore st now tx).users =
      updateRow st.users tx.user_id
        (newRiskValue (getUserRiskScore st.users tx.user_id) tx) := rfl
  rw [he, getUserRiskScore_updateRow _ _ _ hu]
  exact newRiskValue_fraud_mono _ tx hf h0 h1

/-- Witness for C10 at a concrete state and fraud event. -/
theorem fraud_update_monotone_witness :
    getUserRiskScore demoProcState.users dupMsg.user_id ≤
      getUserRiskScore (updateUserRiskScore demoProcState 7 dupMsg).users
        dupMsg.user_id :=
  fraud_update_monotone demoProcState 7 dupMsg rfl
    ⟨1/2, by simp [demoProcState, dupMsg]⟩
    (by norm_num [demoProcState, dupMsg, getUserRiskScore])
    (by norm_num [demoProcState, dupMsg, getUserRiskScore])

end FraudDetection
